import Mathlib

/-!
Shallow embedding of `src/scripts/download-historical-data.py`, the
historical data updater of the repository.

Modelling conventions:

* A Python `datetime` is represented by its epoch timestamp in
  milliseconds (`Int`).  The script stores `timestamp_ms = int(date.timestamp() * 1000)`
  in the JSON arrays and reconstructs `datetime.fromtimestamp(last_timestamp_ms / 1000)`,
  so carrying the millisecond value around is lossless.  `datetime.date()`
  becomes the calendar day number `⌊ms / 86_400_000⌋` (floor division, as
  Python's date arithmetic behaves for the fixed run-time timezone), and
  `timedelta(days=1)` becomes adding `86_400_000` milliseconds.
* Python floats (closing prices, volumes) are modelled as `Rat`.  A NaN
  volume (`pd.notna` false) is modelled as `Option.none`.
* A provider response (`ticker.history(...)`) is a list of `Row`s in the
  order the provider returns them; a raised exception is an `Except.error`.
* File IO is abstracted into an environment `Env`: `load` is the result of
  `load_existing_data` for a crypto id, `fetchMax`/`fetchFrom` are the two
  kinds of `ticker.history` calls.  The per-asset `try ... except` block is
  the function `process_symbol`, whose `Outcome` records whether the asset
  lands in `successful_updates` or `failed_updates`, and (for a success)
  which snapshot is written to the asset's file (`none` = no write).
-/


/-- A daily observation row of a provider response
(`for date, row in hist.iterrows()`): the timestamp in epoch
milliseconds already converted by `int(date.timestamp() * 1000)`, the
`Close` price, and the `Volume` (none models a NaN volume, i.e.
`pd.notna(row['Volume'])` false). -/
structure Row where
  ts : Int
  close : Rat
  volume : Option Rat

/-- The per-asset snapshot JSON object written to `public/data/<crypto_id>.json`.
Timestamp-valued metadata fields (`last_updated`, `earliest_date`,
`latest_date`, ISO strings in the JSON) are modelled by the underlying
epoch timestamps.  A dict whose `"prices"` key is missing is modelled by
an empty `prices` list: the script only observes `data.get('prices')`
through Python truthiness, where a missing key (`None`) and `[]` behave
identically, and the corrupted-data branch replaces the whole object. -/
structure CryptoData where
  symbol : String
  crypto_id : String
  name : String
  last_updated : Int
  data_points : Nat
  earliest_date : Int
  latest_date : Int
  prices : List (Int × Rat)
  total_volumes : List (Int × Rat)

/-- The result of `load_existing_data(crypto_id)` as the main loop's
`if existing_data:` test sees it:
* `missing`: the file does not exist, or `json.load` raised (the function
  returns Python `None`);
* `falsy`: the file parsed to a falsy JSON value (`{}`, `[]`, `null`, `0`,
  `""`), which fails the `if existing_data:` truthiness test exactly like
  `None` does;
* `data d`: the file parsed to a truthy (non-empty) object. -/
inductive Loaded where
  | missing : Loaded
  | falsy : Loaded
  | data : CryptoData → Loaded

/-- Milliseconds in one calendar day; `timedelta(days=1)` in the model. -/
def MS_PER_DAY : Int := 86400000

/-- Calendar day number of an epoch-millisecond timestamp:
`datetime.fromtimestamp(ms / 1000).date()` as a day count since the epoch
(floor division, valid for negative timestamps as well). -/
def dateOfMs (ms : Int) : Int := Int.fdiv ms MS_PER_DAY

/-- `get_last_date_from_data(data)` (lines 48-55): `None` when
`not data or not data.get('prices')` (absent value, missing `prices` key,
or empty `prices` list), otherwise the final entry's timestamp
`data['prices'][-1][0]` (the model keeps the millisecond value that
determines the returned `datetime`). -/
def get_last_date_from_data (v : Loaded) : Option Int :=
  match v with
  | .data d =>
    match d.prices.getLast? with
    | some p => some p.1
    | none => none
  | _ => none

/-- Volume conversion used by both the FULL construction and the DELTA
merge: `float(row['Volume']) if pd.notna(row['Volume']) else 0`. -/
def convVolume : Option Rat → Rat
  | some x => x
  | none => 0

/-- `create_full_data_structure(symbol, hist)` (lines 174-197).  On an
empty `hist` the Python code raises `IndexError` at `hist.index[0]`
(caught by the per-asset handler); the model returns `none` there.
`name` is `symbol.replace('-USD', '')`; `prices` and `total_volumes`
collect `[timestamp_ms, price]` / `[timestamp_ms, volume]` in provider
order. -/
def create_full_data_structure (now : Int) (symbol crypto_id : String)
    (hist : List Row) : Option CryptoData :=
  match hist with
  | [] => none
  | h0 :: _ =>
    some
      { symbol := symbol
        crypto_id := crypto_id
        name := symbol.replace "-USD" ""
        last_updated := now
        data_points := hist.length
        earliest_date := h0.ts
        latest_date := (hist.map Row.ts).getLastD h0.ts
        prices := hist.map fun r => (r.ts, r.close)
        total_volumes := hist.map fun r => (r.ts, convVolume r.volume) }

/-- The append loop of the DELTA branch (lines 104-111): one
`[timestamp_ms, price]` and one `[timestamp_ms, volume]` entry is pushed
onto the end of the existing arrays for each new row, in provider order. -/
def append_rows (d : CryptoData) (new_hist : List Row) : CryptoData :=
  { d with
    prices := d.prices ++ new_hist.map fun r => (r.ts, r.close)
    total_volumes := d.total_volumes ++ new_hist.map fun r => (r.ts, convVolume r.volume) }

/-- The DELTA merge (lines 104-116): append the new rows, then refresh
`last_updated`, `data_points = len(prices)` and
`latest_date = new_hist.index[-1]`.  The caller only reaches this code
with a non-empty `new_hist`, so the `getLastD` default is never used. -/
def merge_delta (now : Int) (d : CryptoData) (new_hist : List Row) : CryptoData :=
  let m := append_rows d new_hist
  { m with
    last_updated := now
    data_points := m.prices.length
    latest_date := (new_hist.map Row.ts).getLastD m.latest_date }

/-- The run-time environment of one updater run: today's local calendar
day number (`datetime.now().date()`), the current timestamp used for the
`last_updated` fields (`datetime.now()`), the contents of the data
directory as seen by `load_existing_data`, and the provider
(`ticker.history(period="max")` and `ticker.history(start=...)`, with
`Except.error` modelling a raised exception). -/
structure Env where
  todayDay : Int
  now : Int
  load : String → Loaded
  fetchMax : String → Except String (List Row)
  fetchFrom : String → Int → Except String (List Row)

/-- Terminal state of one asset in a run: `success w` means the symbol is
appended to `successful_updates`, with `w` the snapshot written to the
asset's file (`none` when the branch `continue`s without writing);
`failed` means the symbol is appended to `failed_updates`. -/
inductive Outcome where
  | success : Option CryptoData → Outcome
  | failed : Outcome

/-- The FULL-download branch for an asset with no prior data
(lines 127-136): an empty response hits the explicit
`if len(hist) == 0` guard and the asset is marked failed; otherwise the
full structure is built and written.  (On a non-empty response
`create_full_data_structure` cannot raise; the `none` arm mirrors the
per-asset exception handler.) -/
def full_download_fresh (env : Env) (symbol crypto_id : String) : Outcome :=
  match env.fetchMax symbol with
  | .error _ => .failed
  | .ok hist =>
    if hist.length = 0 then .failed
    else
      match create_full_data_structure env.now symbol crypto_id hist with
      | none => .failed
      | some ds => .success (some ds)

/-- The FULL-download branch for corrupted existing data (lines 118-124):
no zero-length guard; an empty response raises `IndexError` inside
`create_full_data_structure` (`hist.index[0]`), which the per-asset
handler turns into a failure. -/
def full_download_corrupted (env : Env) (symbol crypto_id : String) : Outcome :=
  match env.fetchMax symbol with
  | .error _ => .failed
  | .ok hist =>
    match create_full_data_structure env.now symbol crypto_id hist with
    | none => .failed
    | some ds => .success (some ds)

/-- The DELTA branch (lines 92-116) for an existing snapshot whose last
timestamp is `ms`: fetch from `last_date + timedelta(days=1)`
(= `ms + MS_PER_DAY`); an empty response is a success without a write
(`continue`), otherwise the merged snapshot is written. -/
def delta_update (env : Env) (symbol : String) (d : CryptoData) (ms : Int) : Outcome :=
  match env.fetchFrom symbol (ms + MS_PER_DAY) with
  | .error _ => .failed
  | .ok new_hist =>
    if new_hist.length = 0 then .success none
    else .success (some (merge_delta env.now d new_hist))

/-- One iteration of the per-asset loop body (lines 70-150, inside
`try ... except`): test `if existing_data:`, extract the last date,
compare calendar days (`days_since = (today - last_data_date).days`;
`days_since == 0` means up to date, no write), and dispatch to the DELTA
or one of the two FULL branches. -/
def process_symbol (env : Env) (symbol crypto_id : String) : Outcome :=
  match env.load crypto_id with
  | .data d =>
    match get_last_date_from_data (.data d) with
    | some ms =>
      if env.todayDay - dateOfMs ms = 0 then .success none
      else delta_update env symbol d ms
    | none => full_download_corrupted env symbol crypto_id
  | _ => full_download_fresh env symbol crypto_id

/-- The update-mode decision of the per-asset loop in isolation:
`full` (complete re-download), `noop` (up to date, no fetch, no write) or
`delta startMs` (incremental fetch starting at `startMs`, i.e. at
`last_date + timedelta(days=1)`). -/
inductive Mode where
  | full : Mode
  | noop : Mode
  | delta : Int → Mode

/-- The decision logic of lines 76-97 as a function of today's day number
and the loaded value: falsy or absent data → FULL; undeterminable last
date → FULL (corrupted); day difference zero → NOOP; any other day
difference → DELTA starting one day after the last observation. -/
def update_mode (todayDay : Int) (v : Loaded) : Mode :=
  match v with
  | .data d =>
    match get_last_date_from_data (.data d) with
    | some ms =>
      if todayDay - dateOfMs ms = 0 then .noop else .delta (ms + MS_PER_DAY)
    | none => .full
  | _ => .full

/-- The `index.json` summary record (lines 161-166). -/
structure IndexData where
  last_updated : Int
  total_tokens : Nat
  available_tokens : List String
  data_source : String

/-- Construction of the index from the run's `successful_updates` list:
`available_tokens = [SYMBOL_TO_ID[s] for s in successful_updates]`. -/
def make_index (now : Int) (idOf : String → String) (successful : List String) : IndexData :=
  { last_updated := now
    total_tokens := successful.length
    available_tokens := successful.map idOf
    data_source := "Yahoo Finance" }

/-- Whether an outcome lands the symbol in `successful_updates`. -/
def succeeded : Outcome → Bool
  | .success _ => true
  | .failed => false

/-- The whole run of `update_crypto_data()` over a symbol list and the
symbol→id mapping: process every symbol in order, partitioning them into
`successful_updates` and `failed_updates` (a per-asset exception never
aborts the loop), and unconditionally build the index from the successes.
Returns `(successful_updates, failed_updates, index)`.  The script
instantiates this with the hardcoded `CRYPTO_SYMBOLS` / `SYMBOL_TO_ID`
constants. -/
def update_crypto_data (env : Env) (symbols : List String)
    (idOf : String → String) : List String × List String × IndexData :=
  let r := symbols.foldl
    (fun acc s =>
      if succeeded (process_symbol env s (idOf s)) then (acc.1 ++ [s], acc.2)
      else (acc.1, acc.2 ++ [s]))
    ([], [])
  (r.1, r.2, make_index env.now idOf r.1)

/-- Strict ascending order of a timestamp list, element by element. -/
def strictlyIncreasing (l : List Int) : Prop := List.Chain' (· < ·) l

/-- Sample snapshot object whose `prices` list is empty (a truthy dict
without usable price data). -/
def sampleNoPrices : CryptoData :=
  { symbol := "BTC-USD", crypto_id := "bitcoin", name := "BTC", last_updated := 0,
    data_points := 0, earliest_date := 0, latest_date := 0, prices := [],
    total_volumes := [] }

/-- Sample snapshot object with a single observation at the epoch. -/
def sampleOnePrice : CryptoData :=
  { sampleNoPrices with data_points := 1, prices := [(0, 1)], total_volumes := [(0, 2)] }

/-- Environment in which the lone asset's snapshot has its last
observation in the future relative to today's date. -/
def sampleEnvPast : Env :=
  { todayDay := -1, now := 5,
    load := fun _ => .data sampleOnePrice,
    fetchMax := fun _ => .ok [],
    fetchFrom := fun _ _ => .ok [] }

/-- Provider response used for delta-merge examples: one new day. -/
def sampleRowsDelta : List Row := [{ ts := 86400000, close := 3, volume := none }]

/-- Environment whose lone asset has yesterday's data and whose delta
fetch returns one new row. -/
def sampleEnvDelta : Env :=
  { todayDay := 1, now := 9,
    load := fun _ => .data sampleOnePrice,
    fetchMax := fun _ => .error "offline",
    fetchFrom := fun _ _ => .ok sampleRowsDelta }

/-- Snapshot obtained by merging `sampleRowsDelta` onto `sampleOnePrice`. -/
def sampleMerged : CryptoData := merge_delta 9 sampleOnePrice sampleRowsDelta

/-- Environment whose lone asset's snapshot already ends on today's
calendar day. -/
def sampleEnvToday : Env :=
  { todayDay := 0, now := 9,
    load := fun _ => .data sampleOnePrice,
    fetchMax := fun _ => .error "offline",
    fetchFrom := fun _ _ => .error "offline" }

/-- Provider response used for full-download examples: two days, the
first with a NaN volume. -/
def sampleRowsFull : List Row :=
  [{ ts := 0, close := 1, volume := none }, { ts := 86400000, close := 2, volume := some 3 }]

/-- The snapshot `create_full_data_structure` builds from
`sampleRowsFull` at time 9. -/
def sampleFull : CryptoData :=
  { symbol := "BTC-USD", crypto_id := "bitcoin", name := "BTC-USD".replace "-USD" "",
    last_updated := 9, data_points := 2, earliest_date := 0,
    latest_date := 86400000,
    prices := [(0, 1), (86400000, 2)],
    total_volumes := [(0, 0), (86400000, 3)] }

/-- Provider response whose single row repeats the timestamp already at
the tail of `sampleOnePrice` (trivially sorted ascending). -/
def sampleRowsOverlap : List Row := [{ ts := 0, close := 2, volume := some 1 }]

/-- Environment whose provider always returns zero rows, with one missing
snapshot, one truthy-but-priceless snapshot, one stale snapshot and falsy
parses for every other id. -/
def sampleEnvEmpty : Env :=
  { todayDay := 1, now := 9,
    load := fun cid =>
      if cid = "bitcoin" then .missing
      else if cid = "ethereum" then .data sampleNoPrices
      else if cid = "solana" then .data sampleOnePrice
      else .falsy,
    fetchMax := fun _ => .ok [],
    fetchFrom := fun _ _ => .ok [] }

/-- Environment for a two-asset run in which the second asset's delta
fetch raises while the first succeeds. -/
def sampleEnvOneFailure : Env :=
  { todayDay := 1, now := 9,
    load := fun _ => .data sampleOnePrice,
    fetchMax := fun _ => .error "offline",
    fetchFrom := fun sym _ =>
      if sym = "ETH-USD" then .error "connection reset" else .ok sampleRowsDelta }

/-- Adding one calendar day's worth of milliseconds advances the calendar
day number by exactly one. -/
theorem dateOfMs_add_day (ms : Int) : dateOfMs (ms + MS_PER_DAY) = dateOfMs ms + 1 := by
  unfold dateOfMs MS_PER_DAY
  rw [Int.fdiv_eq_ediv _ (by norm_num), Int.fdiv_eq_ediv _ (by norm_num)]
  omega

/-- Claim C2: the per-asset update-mode decision yields FULL when no prior
snapshot exists (absent or falsy load result), FULL when the last-observed
date cannot be determined, NOOP when the whole-day difference between
today and the last observation is zero, and DELTA starting the calendar
day after the last observation when the day difference is positive. -/
theorem C2_update_mode_decision (t0 t1 t2 : Int) (v0 v1 v2 : Loaded) (ms1 ms2 : Int)
    (h1 : get_last_date_from_data v0 = none)
    (h2 : get_last_date_from_data v1 = some ms1)
    (h3 : t1 - dateOfMs ms1 = 0)
    (h4 : get_last_date_from_data v2 = some ms2)
    (h5 : 0 < t2 - dateOfMs ms2) :
    update_mode t0 .missing = .full ∧
    update_mode t0 .falsy = .full ∧
    update_mode t0 v0 = .full ∧
    update_mode t1 v1 = .noop ∧
    update_mode t2 v2 = .delta (ms2 + MS_PER_DAY) ∧
    dateOfMs (ms2 + MS_PER_DAY) = dateOfMs ms2 + 1 := by
  refine ⟨rfl, rfl, ?_, ?_, ?_, dateOfMs_add_day ms2⟩
  · cases v0 with
    | missing => rfl
    | falsy => rfl
    | data d => simp [update_mode, h1]
  · cases v1 with
    | missing => simp [get_last_date_from_data] at h2
    | falsy => simp [get_last_date_from_data] at h2
    | data d => simp [update_mode, h2, h3]
  · cases v2 with
    | missing => simp [get_last_date_from_data] at h4
    | falsy => simp [get_last_date_from_data] at h4
    | data d =>
      simp only [update_mode, h4]
      rw [if_neg (by omega)]

/-- Witness for C2 at concrete inputs. -/
theorem C2_update_mode_decision_witness :
    update_mode 7 .missing = .full ∧
    update_mode 7 .falsy = .full ∧
    update_mode 7 (.data sampleNoPrices) = .full ∧
    update_mode 0 (.data sampleOnePrice) = .noop ∧
    update_mode 1 (.data sampleOnePrice) = .delta (0 + MS_PER_DAY) ∧
    dateOfMs (0 + MS_PER_DAY) = dateOfMs 0 + 1 :=
  C2_update_mode_decision 7 0 1 (.data sampleNoPrices) (.data sampleOnePrice)
    (.data sampleOnePrice) 0 0 rfl rfl (by decide) rfl (by decide)

/-- Claim C9: a snapshot whose last observation is on a calendar day
strictly after today is not treated as up to date: processing takes the
DELTA branch, fetching from one calendar day after the (future) last
observation. -/
theorem C9_future_last_date_delta (env : Env) (sym cid : String) (d : CryptoData) (ms : Int)
    (hl : env.load cid = .data d)
    (hms : get_last_date_from_data (.data d) = some ms)
    (hfut : env.todayDay < dateOfMs ms) :
    process_symbol env sym cid = delta_update env sym d ms ∧
    update_mode env.todayDay (.data d) = .delta (ms + MS_PER_DAY) ∧
    dateOfMs (ms + MS_PER_DAY) = dateOfMs ms + 1 := by
  refine ⟨?_, ?_, dateOfMs_add_day ms⟩
  · simp only [process_symbol, hl, hms]
    rw [if_neg (by omega)]
  · simp only [update_mode, hms]
    rw [if_neg (by omega)]

/-- Witness for C9 at concrete inputs. -/
theorem C9_future_last_date_delta_witness :
    process_symbol sampleEnvPast "BTC-USD" "bitcoin"
        = delta_update sampleEnvPast "BTC-USD" sampleOnePrice 0 ∧
    update_mode sampleEnvPast.todayDay (.data sampleOnePrice) = .delta (0 + MS_PER_DAY) ∧
    dateOfMs (0 + MS_PER_DAY) = dateOfMs 0 + 1 :=
  C9_future_last_date_delta sampleEnvPast "BTC-USD" "bitcoin" sampleOnePrice 0
    rfl rfl (by decide)

/-- Unfolding equation: prices after a delta merge are the old prices
followed by the converted new rows. -/
theorem merge_delta_prices (now : Int) (d : CryptoData) (nh : List Row) :
    (merge_delta now d nh).prices = d.prices ++ nh.map fun r => (r.ts, r.close) := rfl

/-- Unfolding equation: volumes after a delta merge are the old volumes
followed by the converted new rows. -/
theorem merge_delta_volumes (now : Int) (d : CryptoData) (nh : List Row) :
    (merge_delta now d nh).total_volumes
      = d.total_volumes ++ nh.map fun r => (r.ts, convVolume r.volume) := rfl

/-- Unfolding equation: `data_points` after a delta merge is the length
of the merged prices list. -/
theorem merge_delta_data_points (now : Int) (d : CryptoData) (nh : List Row) :
    (merge_delta now d nh).data_points = (merge_delta now d nh).prices.length := rfl

/-- A snapshot built by `create_full_data_structure` has timestamp-aligned
`prices` and `total_volumes` and a correct `data_points` count. -/
theorem create_full_wf {now : Int} {sym cid : String} {hist : List Row} {ds : CryptoData}
    (h : create_full_data_structure now sym cid hist = some ds) :
    ds.prices.map Prod.fst = ds.total_volumes.map Prod.fst ∧
    ds.data_points = ds.prices.length := by
  cases hist with
  | nil => simp [create_full_data_structure] at h
  | cons h0 t =>
    simp only [create_full_data_structure, Option.some.injEq] at h
    subst h
    constructor
    · simp [List.map_map, Function.comp_def]
    · simp

/-- A delta merge preserves timestamp alignment and establishes the
`data_points` count. -/
theorem merge_delta_wf {now : Int} {d : CryptoData} {nh : List Row}
    (hal : d.prices.map Prod.fst = d.total_volumes.map Prod.fst) :
    (merge_delta now d nh).prices.map Prod.fst
        = (merge_delta now d nh).total_volumes.map Prod.fst ∧
    (merge_delta now d nh).data_points = (merge_delta now d nh).prices.length := by
  refine ⟨?_, merge_delta_data_points now d nh⟩
  rw [merge_delta_prices, merge_delta_volumes]
  simp [List.map_map, Function.comp_def, hal]

/-- Outcome analysis of the fresh FULL branch: any snapshot it writes is
well formed. -/
theorem full_fresh_wf {env : Env} {sym cid : String} {ds : CryptoData}
    (hw : full_download_fresh env sym cid = .success (some ds)) :
    ds.prices.map Prod.fst = ds.total_volumes.map Prod.fst ∧
    ds.data_points = ds.prices.length := by
  unfold full_download_fresh at hw
  split at hw
  · exact Outcome.noConfusion hw
  · split at hw
    · exact Outcome.noConfusion hw
    · split at hw
      · exact Outcome.noConfusion hw
      · next heq =>
        obtain rfl : _ = ds := Option.some.inj (Outcome.success.inj hw)
        exact create_full_wf heq

/-- Outcome analysis of the corrupted-data FULL branch: any snapshot it
writes is well formed. -/
theorem full_corrupted_wf {env : Env} {sym cid : String} {ds : CryptoData}
    (hw : full_download_corrupted env sym cid = .success (some ds)) :
    ds.prices.map Prod.fst = ds.total_volumes.map Prod.fst ∧
    ds.data_points = ds.prices.length := by
  unfold full_download_corrupted at hw
  split at hw
  · exact Outcome.noConfusion hw
  · split at hw
    · exact Outcome.noConfusion hw
    · next heq =>
      obtain rfl : _ = ds := Option.some.inj (Outcome.success.inj hw)
      exact create_full_wf heq

/-- Outcome analysis of the DELTA branch: if the existing snapshot is
timestamp-aligned, any snapshot the branch writes is well formed. -/
theorem delta_update_wf {env : Env} {sym : String} {d : CryptoData} {ms : Int}
    {ds : CryptoData}
    (hal : d.prices.map Prod.fst = d.total_volumes.map Prod.fst)
    (hw : delta_update env sym d ms = .success (some ds)) :
    ds.prices.map Prod.fst = ds.total_volumes.map Prod.fst ∧
    ds.data_points = ds.prices.length := by
  unfold delta_update at hw
  split at hw
  · exact Outcome.noConfusion hw
  · split at hw
    · exact Option.noConfusion (Outcome.success.inj hw)
    · obtain rfl : _ = ds := Option.some.inj (Outcome.success.inj hw)
      exact merge_delta_wf hal

/-- Claim C1: every snapshot the updater writes - built by the FULL
branches or merged by the DELTA branch - has `prices` and `total_volumes`
of the same length with equal timestamps at each index, and `data_points`
equal to the length of `prices` (for the DELTA branch, provided the
loaded snapshot being extended was itself timestamp-aligned, the
invariant every snapshot this updater writes satisfies). -/
theorem C1_written_snapshot_invariant (env : Env) (sym cid : String) (ds : CryptoData)
    (hload : ∀ d, env.load cid = .data d →
        d.prices.map Prod.fst = d.total_volumes.map Prod.fst)
    (hw : process_symbol env sym cid = .success (some ds)) :
    ds.prices.length = ds.total_volumes.length ∧
    ds.prices.map Prod.fst = ds.total_volumes.map Prod.fst ∧
    ds.data_points = ds.prices.length := by
  have key : ds.prices.map Prod.fst = ds.total_volumes.map Prod.fst ∧
      ds.data_points = ds.prices.length := by
    unfold process_symbol at hw
    split at hw
    · next d hd =>
      split at hw
      · split at hw
        · exact Option.noConfusion (Outcome.success.inj hw)
        · exact delta_update_wf (hload d hd) hw
      · exact full_corrupted_wf hw
    · exact full_fresh_wf hw
  refine ⟨?_, key.1, key.2⟩
  have := congrArg List.length key.1
  simpa using this

/-- Witness for C1 at concrete inputs (a delta merge that writes a file). -/
theorem C1_written_snapshot_invariant_witness :
    sampleMerged.prices.length = sampleMerged.total_volumes.length ∧
    sampleMerged.prices.map Prod.fst = sampleMerged.total_volumes.map Prod.fst ∧
    sampleMerged.data_points = sampleMerged.prices.length :=
  C1_written_snapshot_invariant sampleEnvDelta "BTC-USD" "bitcoin" sampleMerged
    (fun d hd => by cases hd; rfl) rfl

/-- Claim C3: merging a DELTA provider response of N >= 1 rows onto an
existing snapshot with `old_length` entries yields exactly
`old_length + N` entries in `prices` and in `total_volumes`, with the
first `old_length` entries of each sequence identical to the original
snapshot's and the N new entries appended at the end in provider order. -/
theorem C3_delta_merge_appends (now : Int) (d : CryptoData) (new_hist : List Row)
    (old_length : Nat)
    (hp : d.prices.length = old_length)
    (hv : d.total_volumes.length = old_length)
    (hN : 1 ≤ new_hist.length) :
    (merge_delta now d new_hist).prices.length = old_length + new_hist.length ∧
    (merge_delta now d new_hist).total_volumes.length = old_length + new_hist.length ∧
    (merge_delta now d new_hist).prices.take old_length = d.prices ∧
    (merge_delta now d new_hist).total_volumes.take old_length = d.total_volumes ∧
    (merge_delta now d new_hist).prices.drop old_length
        = new_hist.map (fun r => (r.ts, r.close)) ∧
    (merge_delta now d new_hist).total_volumes.drop old_length
        = new_hist.map (fun r => (r.ts, convVolume r.volume)) := by
  refine ⟨?_, ?_, ?_, ?_, ?_, ?_⟩
  · rw [merge_delta_prices]; simp [hp]
  · rw [merge_delta_volumes]; simp [hv]
  · rw [merge_delta_prices, List.take_left' hp]
  · rw [merge_delta_volumes, List.take_left' hv]
  · rw [merge_delta_prices, List.drop_left' hp]
  · rw [merge_delta_volumes, List.drop_left' hv]

/-- Witness for C3 at concrete inputs. -/
theorem C3_delta_merge_appends_witness :
    (merge_delta 9 sampleOnePrice sampleRowsDelta).prices.length
        = 1 + sampleRowsDelta.length ∧
    (merge_delta 9 sampleOnePrice sampleRowsDelta).total_volumes.length
        = 1 + sampleRowsDelta.length ∧
    (merge_delta 9 sampleOnePrice sampleRowsDelta).prices.take 1 = sampleOnePrice.prices ∧
    (merge_delta 9 sampleOnePrice sampleRowsDelta).total_volumes.take 1
        = sampleOnePrice.total_volumes ∧
    (merge_delta 9 sampleOnePrice sampleRowsDelta).prices.drop 1
        = sampleRowsDelta.map (fun r => (r.ts, r.close)) ∧
    (merge_delta 9 sampleOnePrice sampleRowsDelta).total_volumes.drop 1
        = sampleRowsDelta.map (fun r => (r.ts, convVolume r.volume)) :=
  C3_delta_merge_appends 9 sampleOnePrice sampleRowsDelta 1 rfl rfl (by decide)

/-- Claim C7: an existing snapshot whose last observation falls on
today's calendar day is left alone - the branch `continue`s before any
file write - and the asset is recorded in `successful_updates`. -/
theorem C7_up_to_date_no_write (env : Env) (sym cid : String) (d : CryptoData) (ms : Int)
    (hl : env.load cid = .data d)
    (hms : get_last_date_from_data (.data d) = some ms)
    (h0 : env.todayDay - dateOfMs ms = 0) :
    process_symbol env sym cid = .success none ∧
    succeeded (process_symbol env sym cid) = true := by
  have h : process_symbol env sym cid = .success none := by
    simp only [process_symbol, hl, hms]
    rw [if_pos h0]
  exact ⟨h, by rw [h]; rfl⟩

/-- Witness for C7 at concrete inputs. -/
theorem C7_up_to_date_no_write_witness :
    process_symbol sampleEnvToday "BTC-USD" "bitcoin" = .success none ∧
    succeeded (process_symbol sampleEnvToday "BTC-USD" "bitcoin") = true :=
  C7_up_to_date_no_write sampleEnvToday "BTC-USD" "bitcoin" sampleOnePrice 0
    rfl rfl (by decide)

/-- Claim C8: a NaN volume is stored as zero and a reported volume is
stored unchanged, both in the FULL construction and in the DELTA merge:
each branch stores `convVolume` of every row's volume, with
`convVolume none = 0` and `convVolume (some v) = v`. -/
theorem C8_volume_normalization (now : Int) (sym cid : String)
    (hist nh : List Row) (d ds : CryptoData) (v : Rat)
    (hfull : create_full_data_structure now sym cid hist = some ds) :
    ds.total_volumes = hist.map (fun r => (r.ts, convVolume r.volume)) ∧
    (merge_delta now d nh).total_volumes
        = d.total_volumes ++ nh.map (fun r => (r.ts, convVolume r.volume)) ∧
    convVolume none = 0 ∧
    convVolume (some v) = v := by
  refine ⟨?_, merge_delta_volumes now d nh, rfl, rfl⟩
  cases hist with
  | nil => simp [create_full_data_structure] at hfull
  | cons h0 t =>
    simp only [create_full_data_structure, Option.some.injEq] at hfull
    subst hfull
    rfl

/-- Witness for C8 at concrete inputs. -/
theorem C8_volume_normalization_witness :
    sampleFull.total_volumes = sampleRowsFull.map (fun r => (r.ts, convVolume r.volume)) ∧
    (merge_delta 9 sampleOnePrice sampleRowsDelta).total_volumes
        = sampleOnePrice.total_volumes
            ++ sampleRowsDelta.map (fun r => (r.ts, convVolume r.volume)) ∧
    convVolume none = 0 ∧
    convVolume (some 7) = 7 :=
  C8_volume_normalization 9 "BTC-USD" "bitcoin" sampleRowsFull sampleRowsDelta
    sampleOnePrice sampleFull 7 rfl

/-- Counterexample to claim C4 as stated: the existing snapshot's
timestamps are strictly increasing and the DELTA provider response is
sorted ascending, yet the merged snapshot's `prices` timestamps are not
strictly increasing - the merge appends a row whose timestamp duplicates
the existing tail (the merge never deduplicates against the boundary). -/
theorem C4_counterexample :
    strictlyIncreasing (sampleOnePrice.prices.map Prod.fst) ∧
    strictlyIncreasing (sampleRowsOverlap.map Row.ts) ∧
    ¬ strictlyIncreasing
        ((merge_delta 9 sampleOnePrice sampleRowsOverlap).prices.map Prod.fst) := by
  unfold strictlyIncreasing
  refine ⟨?_, ?_, ?_⟩
  · simp [sampleOnePrice, sampleNoPrices]
  · simp [sampleRowsOverlap]
  · rw [merge_delta_prices]
    simp [sampleOnePrice, sampleNoPrices, sampleRowsOverlap, List.chain'_cons]

/-- Claim C4 (amended): snapshots built by the FULL construction have
strictly increasing `prices` timestamps whenever the provider response is
strictly ascending, and a DELTA merge yields strictly increasing
timestamps whenever the existing snapshot is strictly increasing, the
response is strictly ascending, and the response starts strictly after
the snapshot's last timestamp (the boundary condition the counterexample
forces; the code itself never enforces it). -/
theorem C4_amended_strict_timestamps (now : Int) (sym cid : String)
    (hist nh : List Row) (d ds : CryptoData)
    (hfull : create_full_data_structure now sym cid hist = some ds)
    (hhist : strictlyIncreasing (hist.map Row.ts))
    (hd : strictlyIncreasing (d.prices.map Prod.fst))
    (hnh : strictlyIncreasing (nh.map Row.ts))
    (hgap : ∀ x ∈ (d.prices.map Prod.fst).getLast?, ∀ y ∈ (nh.map Row.ts).head?, x < y) :
    strictlyIncreasing (ds.prices.map Prod.fst) ∧
    strictlyIncreasing ((merge_delta now d nh).prices.map Prod.fst) := by
  constructor
  · have hts : ds.prices.map Prod.fst = hist.map Row.ts := by
      cases hist with
      | nil => simp [create_full_data_structure] at hfull
      | cons h0 t =>
        simp only [create_full_data_structure, Option.some.injEq] at hfull
        subst hfull
        simp [List.map_map, Function.comp_def]
    rw [hts]; exact hhist
  · have hts : (merge_delta now d nh).prices.map Prod.fst
        = d.prices.map Prod.fst ++ nh.map Row.ts := by
      rw [merge_delta_prices]
      simp [List.map_map, Function.comp_def]
    unfold strictlyIncreasing at hd hnh ⊢
    rw [hts]
    exact List.chain'_append.2 ⟨hd, hnh, hgap⟩

/-- Witness for the amended C4 at concrete inputs. -/
theorem C4_amended_strict_timestamps_witness :
    strictlyIncreasing (sampleFull.prices.map Prod.fst) ∧
    strictlyIncreasing ((merge_delta 9 sampleOnePrice sampleRowsDelta).prices.map Prod.fst) :=
  C4_amended_strict_timestamps 9 "BTC-USD" "bitcoin" sampleRowsFull sampleRowsDelta
    sampleOnePrice sampleFull rfl
    (by unfold strictlyIncreasing; simp [sampleRowsFull, List.chain'_cons])
    (by unfold strictlyIncreasing; simp [sampleOnePrice, sampleNoPrices])
    (by unfold strictlyIncreasing; simp [sampleRowsDelta])
    (by simp [sampleOnePrice, sampleNoPrices, sampleRowsDelta])

/-- Claim C5: a zero-row provider response is asymmetric by request kind.
Both FULL-mode requests record the asset as failed - the fresh path by the
explicit `len(hist) == 0` guard, the corrupted path because
`create_full_data_structure` raises on an empty response - while a
DELTA-mode request records the asset as successful with no write. -/
theorem C5_empty_response_asymmetry (env : Env) (sym0 sym1 sym2 : String)
    (cid0 cid1 cid2 : String) (d1 d2 : CryptoData) (ms : Int)
    (hl0 : env.load cid0 = .missing ∨ env.load cid0 = .falsy)
    (hf0 : env.fetchMax sym0 = .ok [])
    (hl1 : env.load cid1 = .data d1)
    (hms1 : get_last_date_from_data (.data d1) = none)
    (hf1 : env.fetchMax sym1 = .ok [])
    (hl2 : env.load cid2 = .data d2)
    (hms2 : get_last_date_from_data (.data d2) = some ms)
    (hday : env.todayDay - dateOfMs ms ≠ 0)
    (hf2 : env.fetchFrom sym2 (ms + MS_PER_DAY) = .ok []) :
    process_symbol env sym0 cid0 = .failed ∧
    process_symbol env sym1 cid1 = .failed ∧
    process_symbol env sym2 cid2 = .success none := by
  refine ⟨?_, ?_, ?_⟩
  · rcases hl0 with h | h
    · simp [process_symbol, h, full_download_fresh, hf0]
    · simp [process_symbol, h, full_download_fresh, hf0]
  · simp [process_symbol, hl1, hms1, full_download_corrupted, hf1,
      create_full_data_structure]
  · simp only [process_symbol, hl2, hms2]
    rw [if_neg hday]
    simp [delta_update, hf2]

/-- Witness for C5 at concrete inputs. -/
theorem C5_empty_response_asymmetry_witness :
    process_symbol sampleEnvEmpty "BTC-USD" "bitcoin" = .failed ∧
    process_symbol sampleEnvEmpty "ETH-USD" "ethereum" = .failed ∧
    process_symbol sampleEnvEmpty "SOL-USD" "solana" = .success none :=
  C5_empty_response_asymmetry sampleEnvEmpty "BTC-USD" "ETH-USD" "SOL-USD"
    "bitcoin" "ethereum" "solana" sampleNoPrices sampleOnePrice 0
    (Or.inl rfl) rfl rfl rfl rfl rfl rfl (by decide) rfl

/-- Claim C10: a snapshot file parsing to a falsy JSON value is handled
exactly like a missing file - both take the fresh FULL path, which fails
on a zero-row response through its explicit guard - whereas a truthy
object without usable `prices` takes the corrupted-data FULL path, which
has no explicit guard (on a zero-row response it fails only through the
IndexError raised inside `create_full_data_structure`). -/
theorem C10_falsy_like_missing (env : Env) (sym cid0 cid1 cid2 : String)
    (d : CryptoData)
    (h0 : env.load cid0 = .falsy)
    (h1 : env.load cid1 = .missing)
    (h2 : env.load cid2 = .data d)
    (hnp : d.prices = [])
    (hempty : env.fetchMax sym = .ok []) :
    process_symbol env sym cid0 = full_download_fresh env sym cid0 ∧
    process_symbol env sym cid1 = full_download_fresh env sym cid1 ∧
    full_download_fresh env sym cid0 = .failed ∧
    process_symbol env sym cid2 = full_download_corrupted env sym cid2 ∧
    full_download_corrupted env sym cid2 = .failed := by
  refine ⟨?_, ?_, ?_, ?_, ?_⟩
  · simp [process_symbol, h0]
  · simp [process_symbol, h1]
  · simp [full_download_fresh, hempty]
  · simp [process_symbol, h2, get_last_date_from_data, hnp]
  · simp [full_download_corrupted, hempty, create_full_data_structure]

/-- Witness for C10 at concrete inputs. -/
theorem C10_falsy_like_missing_witness :
    process_symbol sampleEnvEmpty "ADA-USD" "cardano"
        = full_download_fresh sampleEnvEmpty "ADA-USD" "cardano" ∧
    process_symbol sampleEnvEmpty "ADA-USD" "bitcoin"
        = full_download_fresh sampleEnvEmpty "ADA-USD" "bitcoin" ∧
    full_download_fresh sampleEnvEmpty "ADA-USD" "cardano" = .failed ∧
    process_symbol sampleEnvEmpty "ADA-USD" "ethereum"
        = full_download_corrupted sampleEnvEmpty "ADA-USD" "ethereum" ∧
    full_download_corrupted sampleEnvEmpty "ADA-USD" "ethereum" = .failed :=
  C10_falsy_like_missing sampleEnvEmpty "ADA-USD" "cardano" "bitcoin" "ethereum"
    sampleNoPrices rfl rfl rfl rfl rfl

/-- The driver's fold over the symbol list partitions it: symbols whose
processing succeeds are appended to the first accumulator in order, the
rest to the second. -/
theorem foldl_partition (p : String → Bool) (l : List String) (a b : List String) :
    l.foldl (fun acc s => if p s then (acc.1 ++ [s], acc.2) else (acc.1, acc.2 ++ [s]))
        (a, b)
      = (a ++ l.filter p, b ++ l.filter fun s => ! p s) := by
  induction l generalizing a b with
  | nil => simp
  | cons x xs ih =>
    cases hp : p x with
    | true => simp [List.foldl_cons, hp, ih, List.filter_cons]
    | false => simp [List.foldl_cons, hp, ih, List.filter_cons]

/-- Claim C6: one asset's failure does not stop the run.  Every symbol of
the list is processed and partitioned into the success or the failure
list, the index is built unconditionally from the successes,
`available_tokens` holds the crypto id of every successful asset and not
the failed asset's id, and `total_tokens` counts the successes. -/
theorem C6_failure_isolated (env : Env) (symbols : List String) (idOf : String → String)
    (hinj : Function.Injective idOf) (f : String)
    (hf : process_symbol env f (idOf f) = .failed) :
    (update_crypto_data env symbols idOf).1
        = symbols.filter (fun s => succeeded (process_symbol env s (idOf s))) ∧
    (update_crypto_data env symbols idOf).2.1
        = symbols.filter (fun s => ! succeeded (process_symbol env s (idOf s))) ∧
    (update_crypto_data env symbols idOf).2.2
        = make_index env.now idOf (update_crypto_data env symbols idOf).1 ∧
    (update_crypto_data env symbols idOf).2.2.available_tokens
        = (update_crypto_data env symbols idOf).1.map idOf ∧
    (update_crypto_data env symbols idOf).2.2.total_tokens
        = (update_crypto_data env symbols idOf).1.length ∧
    (∀ s ∈ symbols, succeeded (process_symbol env s (idOf s)) = true →
        idOf s ∈ (update_crypto_data env symbols idOf).2.2.available_tokens) ∧
    idOf f ∉ (update_crypto_data env symbols idOf).2.2.available_tokens := by
  have hrun : update_crypto_data env symbols idOf
      = (symbols.filter (fun s => succeeded (process_symbol env s (idOf s))),
         symbols.filter (fun s => ! succeeded (process_symbol env s (idOf s))),
         make_index env.now idOf
           (symbols.filter (fun s => succeeded (process_symbol env s (idOf s))))) := by
    unfold update_crypto_data
    rw [foldl_partition]
    simp
  rw [hrun]
  refine ⟨rfl, rfl, rfl, rfl, rfl, ?_, ?_⟩
  · intro s hs hsucc
    simp only [make_index, List.mem_map]
    exact ⟨s, List.mem_filter.2 ⟨hs, hsucc⟩, rfl⟩
  · intro hmem
    simp only [make_index, List.mem_map] at hmem
    obtain ⟨s, hs, hid⟩ := hmem
    obtain rfl : s = f := hinj hid
    have hsucc := (List.mem_filter.1 hs).2
    rw [hf] at hsucc
    simp [succeeded] at hsucc

/-- Witness for C6 at concrete inputs: a two-symbol run in which the
second symbol's fetch raises. -/
theorem C6_failure_isolated_witness :
    (update_crypto_data sampleEnvOneFailure ["BTC-USD", "ETH-USD"] id).1
        = ["BTC-USD", "ETH-USD"].filter
            (fun s => succeeded (process_symbol sampleEnvOneFailure s (id s))) ∧
    (update_crypto_data sampleEnvOneFailure ["BTC-USD", "ETH-USD"] id).2.1
        = ["BTC-USD", "ETH-USD"].filter
            (fun s => ! succeeded (process_symbol sampleEnvOneFailure s (id s))) ∧
    (update_crypto_data sampleEnvOneFailure ["BTC-USD", "ETH-USD"] id).2.2
        = make_index sampleEnvOneFailure.now id
            (update_crypto_data sampleEnvOneFailure ["BTC-USD", "ETH-USD"] id).1 ∧
    (update_crypto_data sampleEnvOneFailure ["BTC-USD", "ETH-USD"] id).2.2.available_tokens
        = (update_crypto_data sampleEnvOneFailure ["BTC-USD", "ETH-USD"] id).1.map id ∧
    (update_crypto_data sampleEnvOneFailure ["BTC-USD", "ETH-USD"] id).2.2.total_tokens
        = (update_crypto_data sampleEnvOneFailure ["BTC-USD", "ETH-USD"] id).1.length ∧
    (∀ s ∈ ["BTC-USD", "ETH-USD"],
        succeeded (process_symbol sampleEnvOneFailure s (id s)) = true →
        id s ∈ (update_crypto_data sampleEnvOneFailure
            ["BTC-USD", "ETH-USD"] id).2.2.available_tokens) ∧
    id "ETH-USD" ∉ (update_crypto_data sampleEnvOneFailure
        ["BTC-USD", "ETH-USD"] id).2.2.available_tokens :=
  C6_failure_isolated sampleEnvOneFailure ["BTC-USD", "ETH-USD"] id
    Function.injective_id "ETH-USD" rfl

